import Mathlib

/-!
Verification development for the PlanMyStay application bootstrap
(`app.js`).  The file shallowly embeds the configuration values, the
startup ordering, the middleware pipeline and the inline request handlers
of the bootstrap script, and proves the specified properties about them.
-/

namespace PlanMyStay

/-- JavaScript values that occur in the configuration expressions of the
bootstrap: strings (environment variables, URLs, secrets) and numbers
(the default port). -/
inductive JsVal where
  | str : String → JsVal
  | num : Nat → JsVal
deriving DecidableEq, Repr

/-- Render a JavaScript value as the string it interpolates to inside a
template literal. -/
def JsVal.text : JsVal → String
  | .str s => s
  | .num n => toString n

/-- JavaScript `a || b` on an optional environment variable: an absent
variable and the empty string are falsy and select the default. -/
def jsOr : Option String → JsVal → JsVal
  | some s, d => if s = "" then d else .str s
  | none, d => d

/-- The process environment variables read by `app.js`. -/
structure Env where
  NODE_ENV : Option String
  ATLAS_URI : Option String
  SECRET : Option String
  PORT : Option String
deriving DecidableEq, Repr

/-- `const dbUrl = process.env.ATLAS_URI || "mongodb://127.0.0.1:27017/planmystay"`
(app.js line 48). -/
def dbUrl (env : Env) : JsVal :=
  jsOr env.ATLAS_URI (.str "mongodb://127.0.0.1:27017/planmystay")

/-- `const PORT = process.env.PORT || 3000` (app.js line 166). -/
def PORT (env : Env) : JsVal :=
  jsOr env.PORT (.num 3000)

/-- The `crypto` option passed to `MongoStore.create` (app.js lines 77-79). -/
structure CryptoConfig where
  secret : JsVal
deriving DecidableEq, Repr

/-- The options object passed to `MongoStore.create` (app.js lines 75-81). -/
structure StoreConfig where
  mongoUrl : JsVal
  crypto : CryptoConfig
  touchAfter : Nat
deriving DecidableEq, Repr

/-- `const store = MongoStore.create({...})` (app.js lines 75-81): the
persistent session store is backed by the same database URL, encrypts
payloads with `process.env.SECRET || "devsecret"`, and touches lazily at
most once per `24 * 3600` seconds. -/
def store (env : Env) : StoreConfig :=
  { mongoUrl := dbUrl env
  , crypto := { secret := jsOr env.SECRET (.str "devsecret") }
  , touchAfter := 24 * 3600 }

/-- The `cookie` sub-object of the session configuration (app.js lines 93-97). -/
structure CookieConfig where
  httpOnly : Bool
  secure : Bool
  maxAge : Nat
deriving DecidableEq, Repr

/-- The object passed to `session(...)` (app.js lines 88-98). -/
structure SessionConfig where
  store : StoreConfig
  secret : JsVal
  resave : Bool
  saveUninitialized : Bool
  cookie : CookieConfig
deriving DecidableEq, Repr

/-- `const sessionConfig = {...}` (app.js lines 88-98): the session store,
the signing secret `process.env.SECRET || "devsecret"`, `resave: false`,
`saveUninitialized: false`, and an HTTP-only cookie whose `secure` flag
holds exactly in production and whose max age is `1000 * 60 * 60 * 24`
milliseconds. -/
def sessionConfig (env : Env) : SessionConfig :=
  { store := store env
  , secret := jsOr env.SECRET (.str "devsecret")
  , resave := false
  , saveUninitialized := false
  , cookie :=
    { httpOnly := true
    , secure := env.NODE_ENV == some "production"
    , maxAge := 1000 * 60 * 60 * 24 } }

/-- Model of the end-of-request persistence decision of the express-session
middleware, as documented by the library: a new (uninitialized) session is
written to the store iff `saveUninitialized` is set or the session was
modified during the request; an existing session is rewritten iff `resave`
is set or it was modified. -/
def sessionSaved (cfg : SessionConfig) (isNew modified : Bool) : Bool :=
  if isNew then cfg.saveUninitialized || modified else cfg.resave || modified

/-- Modelled from the spec: the end of a session's life — the session no
longer authenticates after an explicit logout or once the cookie max age
(counted from issuance) has elapsed.  The logout route handler
(routes/user.js) is not among the shown sources. -/
def sessionEnded (cfg : SessionConfig) (loggedOut : Bool) (ageMs : Nat) : Bool :=
  loggedOut || decide (cfg.cookie.maxAge ≤ ageMs)

/-- The transient session contents relevant to the first-request flow: the
flash store (absent until connect-flash first touches the session) and its
two message queues. -/
structure SessionData where
  flashInit : Bool
  flashSuccess : List String
  flashError : List String
deriving DecidableEq, Repr

/-- Model of connect-flash's read path for `req.flash("success")`: the
accessor first assigns `this.session.flash = this.session.flash || ...`
(initializing the flash store of a session that has none), then drains and
removes the key's queue.  Returns the drained messages, the session
afterwards, and whether the call changed the session contents — it always
does on a session whose flash store was not yet initialized, which is how
express-session's modification check comes to count the session as
modified. -/
def flashReadSuccessKey (s : SessionData) : List String × SessionData × Bool :=
  ( s.flashSuccess
  , { s with flashInit := true, flashSuccess := [] }
  , !s.flashInit || !s.flashSuccess.isEmpty )

/-- Model of connect-flash's read path for `req.flash("error")`, exactly as
for the success key. -/
def flashReadErrorKey (s : SessionData) : List String × SessionData × Bool :=
  ( s.flashError
  , { s with flashInit := true, flashError := [] }
  , !s.flashInit || !s.flashError.isEmpty )

/-- The effect of the global template-vars middleware (app.js lines
112-117) on the request's session: it reads both flash keys via
`req.flash`, so on a session without a flash store it initializes one.
Returns the session afterwards and whether the session was modified. -/
def templateVarsSessionEffect (s : SessionData) : SessionData × Bool :=
  let r1 := flashReadSuccessKey s
  let r2 := flashReadErrorKey r1.2.1
  (r2.2.1, r1.2.2 || r2.2.2)

/-- A first unauthenticated request to a route behind the session
middleware: express-session creates a fresh session (no flash store yet),
the request then passes the global template-vars middleware before any
route dispatch, and at end of request express-session persists the new
session iff it was modified during the request (`saveUninitialized` is
`false`). -/
def firstRequestSessionSaved (env : Env) : Bool :=
  let fresh : SessionData := ⟨false, [], []⟩
  let eff := templateVarsSessionEffect fresh
  sessionSaved (sessionConfig env) true eff.2

/-- Observable startup events of the bootstrap script: the database
connection attempt starting, its two possible completions, the call to
`app.listen`, the listener actually accepting connections, the bind error
log, and process exit. -/
inductive Ev where
  | connectStart
  | logConnectOk
  | logDbError
  | listenCall
  | listening
  | logBindError
  | processExit : Nat → Ev
deriving DecidableEq, Repr

/-- The synchronous phase of the script: `main()` is invoked (starting the
connection attempt and suspending at its first await, app.js lines 51-63)
and the script then runs on to `app.listen(PORT, ...)` (line 168) without
awaiting `main()`. -/
def syncPhase : List Ev := [Ev.connectStart, Ev.listenCall]

/-- The asynchronous completion of the connection attempt: on failure the
catch block logs the error and calls `process.exit(1)` (app.js lines
58-61); on success it logs the connection message (line 57). -/
def connectCompletion (dbFails : Bool) : List Ev :=
  if dbFails then [Ev.logDbError, Ev.processExit 1] else [Ev.logConnectOk]

/-- The asynchronous completion of the listener bind: on failure the
server error handler logs and calls `process.exit(1)` (app.js lines
175-185); on success the server starts accepting connections. -/
def listenCompletion (bindFails : Bool) : List Ev :=
  if bindFails then [Ev.logBindError, Ev.processExit 1] else [Ev.listening]

/-- `process.exit` terminates the process immediately: nothing after the
first exit event is observable. -/
def truncAtExit : List Ev → List Ev
  | [] => []
  | Ev.processExit c :: _ => [Ev.processExit c]
  | e :: rest => e :: truncAtExit rest

/-- The reachable startup traces: the synchronous phase followed by the two
asynchronous completions in either order (which of the two pending
operations settles first is decided by the event loop, not the script). -/
def startupTraces (dbFails bindFails : Bool) : List (List Ev) :=
  [ truncAtExit (syncPhase ++ connectCompletion dbFails ++ listenCompletion bindFails)
  , truncAtExit (syncPhase ++ listenCompletion bindFails ++ connectCompletion dbFails) ]

/-- The observable process state touched by the event callbacks: the
console log and whether (and with which code) the process has exited. -/
structure ProcState where
  log : List String
  exited : Option Nat
deriving DecidableEq, Repr

/-- `store.on("error", ...)` (app.js lines 83-85): the session-store error
callback only logs the failure. -/
def storeErrorHandler (e : String) (s : ProcState) : ProcState :=
  { s with log := s.log ++ ["SESSION STORE ERROR " ++ e] }

/-- The `app.listen` success callback (app.js lines 168-172): logs the
three readiness messages. -/
def listenCallback (port : JsVal) (s : ProcState) : ProcState :=
  { s with log := s.log ++
      [ "PlanMyStay Server running on port " ++ port.text
      , "Visit: http://localhost:" ++ port.text
      , "Welcome to PlanMyStay - Your Perfect Travel Companion!" ] }

/-- `server.on("error", ...)` (app.js lines 175-185): logs a diagnostic —
a dedicated one for `EADDRINUSE` — and exits with code 1. -/
def serverErrorHandler (port : JsVal) (errCode : String) (s : ProcState) : ProcState :=
  let logged :=
    if errCode = "EADDRINUSE" then
      s.log ++ [ "Port " ++ port.text ++ " is already in use."
               , "Try: taskkill /f /im node.exe OR PORT=3001 nodemon app.js" ]
    else
      s.log ++ ["Server error: " ++ errCode]
  { log := logged, exited := some 1 }

/-- One route mounting `app.use(path, [requireAuth,] routes)`. -/
structure Mount where
  mountPath : String
  gated : Bool
  routes : String
deriving DecidableEq, Repr

/-- The route mountings of app.js lines 120-125, in source order. -/
def routeMounts : List Mount :=
  [ ⟨"/users", false, "userRoutes"⟩
  , ⟨"/listings", true, "listingRoutes"⟩
  , ⟨"/listings/:id/reviews", true, "reviewRoutes"⟩
  , ⟨"/api/insights", true, "insightsRoutes"⟩
  , ⟨"/services", true, "servicesRoutes"⟩
  , ⟨"/api/journey", false, "journeyRoutes"⟩ ]

/-- Outcome of a request entering a mounted prefix: denied by the
authentication gate, or passed to the mounted route collection. -/
inductive MountOutcome where
  | denied
  | routed : String → MountOutcome
deriving DecidableEq, Repr

/-- Modelled from the spec: the `requireAuth` middleware
(middleware/auth.js is not among the shown sources) responds with an
authentication-required outcome for a request without a resolved
authenticated identity, and calls through to the downstream handlers
otherwise. -/
def requireAuth (authed : Bool) (downstream : MountOutcome) : MountOutcome :=
  if authed then downstream else .denied

/-- Processing of a request that enters a mounted prefix: a gated mount
interposes `requireAuth` before its route collection, an ungated mount
dispatches to the route collection directly. -/
def processMount (m : Mount) (authed : Bool) : MountOutcome :=
  if m.gated then requireAuth authed (.routed m.routes) else .routed m.routes

/-- The gated prefixes named by the specification. -/
def gatedPaths : List String :=
  ["/listings", "/listings/:id/reviews", "/api/insights", "/services"]

/-- A request's inbound session data as seen by the global template-vars
middleware: the resolved user and the two flash queues. -/
structure Request where
  user : Option String
  flashSuccess : List String
  flashError : List String
deriving DecidableEq, Repr

/-- The `res.locals` values set by the global template-vars middleware. -/
structure Locals where
  currentUser : Option String
  success : List String
  error : List String
deriving DecidableEq, Repr

/-- The global template-vars middleware (app.js lines 112-117): it copies
`req.user` to `res.locals.currentUser`, drains the success and error flash
queues into `res.locals`, and calls `next()`.  The result is the request
after the drain, the locals set, and whether `next` was called. -/
def globalTemplateVars (req : Request) : Request × Locals × Bool :=
  ( { req with flashSuccess := [], flashError := [] }
  , { currentUser := req.user, success := req.flashSuccess, error := req.flashError }
  , true )

/-- The middleware and route registrations of app.js, in registration
order. -/
inductive Stage where
  | urlencodedStage
  | methodOverrideStage
  | staticStage
  | sessionStage
  | flashStage
  | passportInitStage
  | passportSessionStage
  | templateVarsStage
  | usersMount
  | listingsMount
  | reviewsMount
  | insightsMount
  | servicesMount
  | journeyApiMount
  | homeRoute
  | journeyPageRoute
  | seedJourneyRoute
  | predictPriceRoute
  | notFoundStage
  | errorHandlerStage
deriving DecidableEq, BEq, Repr

/-- The `app.use`/`app.get`/`app.post` registration order of app.js
(lines 70-163). -/
def appPipeline : List Stage :=
  [ .urlencodedStage, .methodOverrideStage, .staticStage
  , .sessionStage, .flashStage, .passportInitStage, .passportSessionStage
  , .templateVarsStage
  , .usersMount, .listingsMount, .reviewsMount, .insightsMount
  , .servicesMount, .journeyApiMount
  , .homeRoute, .journeyPageRoute, .seedJourneyRoute, .predictPriceRoute
  , .notFoundStage, .errorHandlerStage ]

/-- Outcome of an inline route handler: a response it sends itself, or an
error propagated to the terminal error-handling middleware. -/
inductive HandlerOutcome where
  | respond : Nat → String → HandlerOutcome
  | propagate : String → HandlerOutcome
deriving DecidableEq, Repr

/-- The `GET /seed-journey` handler (app.js lines 138-147): the whole body
is inside `try`; on success it sends a success JSON, on any thrown error
the catch block sends a 500 JSON with the error message. -/
def seedJourneyHandler : Except String Unit → HandlerOutcome
  | .ok _ => .respond 200 "success true, message Journey data seeded successfully"
  | .error e => .respond 500 ("success false, error " ++ e)

/-- The `POST /api/predict-price` handler (app.js lines 150-159): the whole
body is inside `try`; on success it sends the prediction JSON, on any
thrown error the catch block sends a fixed 500 JSON. -/
def predictPriceHandler : Except String String → HandlerOutcome
  | .ok prediction => .respond 200 prediction
  | .error _ => .respond 500 "error Failed to get price prediction"

/-- Claim C1 (counterexample): with a failing database connection and a
successful bind, the startup interleaving in which the bind settles first
is a reachable trace in which the server reaches the listening state, so
it is not the case that no reachable startup trace with a failing database
connection accepts connections. -/
theorem C1_listenBeforeExit :
    ¬ (∀ t ∈ startupTraces true false, Ev.listening ∉ t) := by decide

/-- Claim C1 (amended): if the database connection attempt fails, every
reachable startup trace logs an error, makes exactly one connection
attempt (no retry), and ends with process exit code 1 (no degraded mode);
the call to `app.listen` nevertheless precedes the exit in every trace,
because `main()` is not awaited before the listener is started. -/
theorem C1_dbFailureFatal (bindFails : Bool) :
    ∀ t ∈ startupTraces true bindFails,
      Ev.processExit 1 ∈ t ∧
      t.count Ev.connectStart = 1 ∧
      t.getLast? = some (Ev.processExit 1) ∧
      (Ev.logDbError ∈ t ∨ Ev.logBindError ∈ t) ∧
      Ev.listenCall ∈ t := by
  cases bindFails <;> decide

/-- Claim C1 (witness for the amended theorem): the connect-first trace
with a failing connection and a successful bind exits with code 1. -/
theorem C1_dbFailureFatal_witness :
    Ev.processExit 1 ∈
      truncAtExit (syncPhase ++ connectCompletion true ++ listenCompletion false) :=
  (C1_dbFailureFatal false
    (truncAtExit (syncPhase ++ connectCompletion true ++ listenCompletion false))
    (by decide)).1

/-- Claim C2: on a client's first unauthenticated request the fresh
session is persisted — although `saveUninitialized` is `false`, the global
template-vars middleware's two `req.flash` reads initialize the session's
flash store, so the new session counts as modified and express-session
writes it; the store touches a session lazily at most once per 24 hours
of inactivity (`touchAfter` is 86400 seconds); and the session is
destroyed on explicit logout or on expiry one day (86400000 ms) after
cookie issuance. -/
theorem C2_firstRequestPersisted (env : Env) (loggedOut : Bool) (ageMs : Nat) :
    firstRequestSessionSaved env = true ∧
    (templateVarsSessionEffect ⟨false, [], []⟩).2 = true ∧
    (sessionConfig env).store.touchAfter = 24 * 3600 ∧
    (sessionConfig env).cookie.maxAge = 1000 * 60 * 60 * 24 ∧
    sessionEnded (sessionConfig env) true ageMs = true ∧
    sessionEnded (sessionConfig env) loggedOut ageMs =
      (loggedOut || decide (1000 * 60 * 60 * 24 ≤ ageMs)) :=
  ⟨rfl, rfl, rfl, rfl, rfl, rfl⟩

/-- Claim C3: every mounted prefix in app.js is gated exactly when it is
one of `/listings`, `/listings/:id/reviews`, `/api/insights`, `/services`;
an unauthenticated request entering a gated mount is denied by
`requireAuth` before the mounted route collection runs, and one entering
an ungated mount (`/users`, `/api/journey`) is dispatched to the route
collection normally. -/
theorem C3_routeGating :
    ∀ m ∈ routeMounts,
      (m.gated = true ↔ m.mountPath ∈ gatedPaths) ∧
      (m.gated = true → processMount m false = .denied) ∧
      (m.gated = false → processMount m false = .routed m.routes) := by
  decide

/-- Claim C3 (witness): the `/listings` mount is gated and denies an
unauthenticated request, and the `/api/journey` mount routes it. -/
theorem C3_routeGating_witness :
    processMount ⟨"/listings", true, "listingRoutes"⟩ false = .denied ∧
    processMount ⟨"/api/journey", false, "journeyRoutes"⟩ false =
      .routed "journeyRoutes" :=
  ⟨(C3_routeGating ⟨"/listings", true, "listingRoutes"⟩ (by decide)).2.1 rfl
  , (C3_routeGating ⟨"/api/journey", false, "journeyRoutes"⟩ (by decide)).2.2 rfl⟩

/-- Claim C4: for every environment, the session cookie is HTTP-only, its
max age is exactly 24 hours (86400000 ms), and its `secure` flag is true
exactly when `NODE_ENV` equals `production`. -/
theorem C4_cookieConfig (env : Env) :
    (sessionConfig env).cookie.httpOnly = true ∧
    (sessionConfig env).cookie.maxAge = 1000 * 60 * 60 * 24 ∧
    ((sessionConfig env).cookie.secure = true ↔ env.NODE_ENV = some "production") := by
  refine ⟨rfl, rfl, ?_⟩
  simp [sessionConfig]

/-- Claim C5: for every environment, the session store is configured with
`touchAfter` of 24 hours (86400 seconds) between lazy refresh writes, and
its payload-encryption secret is the very session secret. -/
theorem C5_storeConfig (env : Env) :
    (store env).touchAfter = 24 * 3600 ∧
    (store env).crypto.secret = (sessionConfig env).secret :=
  ⟨rfl, rfl⟩

/-- Claim C6: the session-store error callback extends the log with the
store-error message and leaves the rest of the process state unchanged —
in particular it never exits the process. -/
theorem C6_storeErrorNonFatal (e : String) (s : ProcState) :
    (storeErrorHandler e s).exited = s.exited ∧
    (storeErrorHandler e s).log = s.log ++ ["SESSION STORE ERROR " ++ e] :=
  ⟨rfl, rfl⟩

/-- Claim C7: on a listener error the server error handler logs a
diagnostic (the log strictly grows) and exits the process with code 1; on
a successful bind the listen callback logs readiness and does not change
the exit state. -/
theorem C7_listenerOutcomes (port : JsVal) (errCode : String) (s : ProcState) :
    (serverErrorHandler port errCode s).exited = some 1 ∧
    s.log.length < (serverErrorHandler port errCode s).log.length ∧
    (listenCallback port s).exited = s.exited ∧
    ("PlanMyStay Server running on port " ++ port.text) ∈ (listenCallback port s).log := by
  refine ⟨rfl, ?_, rfl, ?_⟩
  · simp only [serverErrorHandler]
    split <;> simp
  · simp [listenCallback]

/-- Claim C8: the global view-context middleware is registered exactly once,
before every route mount; it sets exactly the three locals — the current
user, the drained success queue and the drained error queue — empties both
flash queues on the request, and always calls `next`. -/
theorem C8_templateVars (req : Request) :
    (globalTemplateVars req).2.2 = true ∧
    (globalTemplateVars req).2.1 =
      ⟨req.user, req.flashSuccess, req.flashError⟩ ∧
    (globalTemplateVars req).1.flashSuccess = [] ∧
    (globalTemplateVars req).1.flashError = [] ∧
    appPipeline.count Stage.templateVarsStage = 1 ∧
    appPipeline.indexOf Stage.templateVarsStage < appPipeline.indexOf Stage.usersMount ∧
    appPipeline.indexOf Stage.templateVarsStage < appPipeline.indexOf Stage.listingsMount ∧
    appPipeline.indexOf Stage.templateVarsStage < appPipeline.indexOf Stage.reviewsMount ∧
    appPipeline.indexOf Stage.templateVarsStage < appPipeline.indexOf Stage.insightsMount ∧
    appPipeline.indexOf Stage.templateVarsStage < appPipeline.indexOf Stage.servicesMount ∧
    appPipeline.indexOf Stage.templateVarsStage < appPipeline.indexOf Stage.journeyApiMount := by
  exact ⟨rfl, rfl, rfl, rfl, by decide, by decide, by decide, by decide,
         by decide, by decide, by decide⟩

/-- Claim C9: with the corresponding environment variables absent, the
database URL falls back to the local MongoDB URL, the secret falls back to
the literal `devsecret` and is the same value in both its roles (session
signing key and store encryption key), and the port falls back to 3000. -/
theorem C9_envDefaults (env : Env)
    (hA : env.ATLAS_URI = none) (hS : env.SECRET = none) (hP : env.PORT = none) :
    dbUrl env = .str "mongodb://127.0.0.1:27017/planmystay" ∧
    (sessionConfig env).secret = .str "devsecret" ∧
    (sessionConfig env).store.crypto.secret = (sessionConfig env).secret ∧
    PORT env = .num 3000 := by
  refine ⟨?_, ?_, rfl, ?_⟩ <;> simp [dbUrl, sessionConfig, PORT, jsOr, hA, hS, hP]

/-- Claim C9 (witness): the defaults at the empty environment. -/
theorem C9_envDefaults_witness :
    dbUrl ⟨none, none, none, none⟩ = .str "mongodb://127.0.0.1:27017/planmystay" ∧
    (sessionConfig ⟨none, none, none, none⟩).secret = .str "devsecret" ∧
    (sessionConfig ⟨none, none, none, none⟩).store.crypto.secret =
      (sessionConfig ⟨none, none, none, none⟩).secret ∧
    PORT ⟨none, none, none, none⟩ = .num 3000 :=
  C9_envDefaults ⟨none, none, none, none⟩ rfl rfl rfl

/-- Claim C10: the inline `/seed-journey` and `/api/predict-price` handlers
always respond themselves — no outcome of the delegated operation is ever
propagated to the terminal error-handling middleware — and every thrown
error is answered with an HTTP 500 JSON body. -/
theorem C10_inlineHandlersCatch (r1 : Except String Unit) (r2 : Except String String) :
    (∃ s b, seedJourneyHandler r1 = .respond s b) ∧
    (∃ s b, predictPriceHandler r2 = .respond s b) ∧
    (∀ e, seedJourneyHandler (.error e) = .respond 500 ("success false, error " ++ e)) ∧
    (∀ e, predictPriceHandler (.error e) =
      .respond 500 "error Failed to get price prediction") := by
  refine ⟨?_, ?_, fun e => rfl, fun e => rfl⟩
  · cases r1 with
    | ok u => exact ⟨200, _, rfl⟩
    | error e => exact ⟨500, _, rfl⟩
  · cases r2 with
    | ok p => exact ⟨200, _, rfl⟩
    | error e => exact ⟨500, _, rfl⟩

end PlanMyStay
